import Mathlib

/-
Verification of the AMR Hub agent-based-model core (spatial model, task state
machine, simulation stepping engine).

The development is a shallow embedding of the Python sources under
`src/amr_hub_abm/`.  Conventions used throughout:

* Python `int` is embedded as `ℤ`; Python `float` is embedded as `ℚ` with exact
  arithmetic (the code never relies on IEEE rounding, only on comparisons and
  ring operations with small literals).
* A Python function that can raise is embedded as a function into `Except Err _`
  (or, for the simulation step, a pair carrying the possibly partially mutated
  state, because a raise in the middle of the agent loop leaves the earlier
  mutations in place).
* Fields declared `field(init=False)` and never assigned (such as
  `Task.time_started`) are embedded as `Option` values that start out `none`;
  reading such a field before assignment raises `AttributeError` in Python and
  is embedded as `Err.attributeError`.
* Square roots of rationals are in general irrational, so the embedding never
  materialises a Euclidean distance; every comparison the code makes against a
  distance is embedded by the exact algebraic encodings `sqrtLE` / `sqrtLT`
  below, whose agreement with `Real.sqrt` is proved.
-/

namespace AmrHub

/-- Error taxonomy of the code base, from `exceptions.py` plus the built-in
Python exceptions the core raises (`ValueError`, `RuntimeError`,
`AttributeError`, `KeyError`, `ZeroDivisionError`).  `timeError` is
Modelled from the spec: the class `TimeError` is imported and raised by
`simulation.py` and `task.py` but its definition is absent from the sources
under `src/`; spec section 7 lists `TimeError` for out-of-range time values. -/
inductive Err where
  | timeError (msg : String)
  | valueError (msg : String)
  | runtimeError (msg : String)
  | attributeError
  | invalidDistanceError (buildings : Bool)
  | invalidRoomError (msg : String)
  | invalidDoorError (msg : String)
  | simulationModeError (msg : String)
  | keyError
  | zeroDivisionError
  deriving DecidableEq

/-- Embedding of `Location` (`space/location.py`): a point with floor and
optional building scope (`building: str | None = None`). -/
structure Location where
  x : ℚ
  y : ℚ
  floor : ℤ
  building : Option String := none
  deriving DecidableEq

/-- Embedding of `Location.distance_to` (`space/location.py` lines 32-39).
The Python function returns the Euclidean distance
`sqrt((x1-x2)**2 + (y1-y2)**2)`; since the square root of a rational is in
general irrational, the embedding returns the SQUARED distance, and every
comparison the callers make against the returned value is embedded through
`sqrtLE` / `sqrtLT`, which encode the corresponding real comparisons exactly.
The error cases are verbatim: `InvalidDistanceError` tagged with `building=True`
when the buildings differ, else tagged with `building=False` when the floors
differ. -/
def Location.distance_to (self other : Location) : Except Err ℚ :=
  if self.building ≠ other.building then .error (.invalidDistanceError true)
  else if self.floor ≠ other.floor then .error (.invalidDistanceError false)
  else .ok ((self.x - other.x) ^ 2 + (self.y - other.y) ^ 2)

/-- Exact encoding of the real comparison `sqrt d2 ≤ c` for `0 ≤ d2`,
avoiding the irrational square root (see `sqrtLE_correct`). -/
def sqrtLE (d2 c : ℚ) : Bool :=
  decide (0 ≤ c ∧ d2 ≤ c ^ 2)

/-- Exact encoding of the real comparison `sqrt d2 < c` for `0 ≤ d2`,
avoiding the irrational square root (see `sqrtLT_correct`). -/
def sqrtLT (d2 c : ℚ) : Bool :=
  decide (0 < c ∧ d2 < c ^ 2)

/-- Soundness of the `sqrtLE` encoding with respect to the real square root. -/
theorem sqrtLE_correct (d2 c : ℚ) (h : 0 ≤ d2) :
    sqrtLE d2 c = true ↔ Real.sqrt d2 ≤ (c : ℝ) := by
  rw [sqrtLE, decide_eq_true_eq]
  constructor
  · rintro ⟨hc, hle⟩
    have h1 : Real.sqrt d2 ≤ Real.sqrt ((c : ℝ) ^ 2) := by
      apply Real.sqrt_le_sqrt
      exact_mod_cast hle
    rwa [Real.sqrt_sq (by exact_mod_cast hc)] at h1
  · intro hle
    have hc : (0 : ℝ) ≤ (c : ℝ) := le_trans (Real.sqrt_nonneg _) hle
    refine ⟨by exact_mod_cast hc, ?_⟩
    have h2 : ((d2 : ℝ)) ≤ (c : ℝ) ^ 2 := by
      have := Real.sq_sqrt (by exact_mod_cast h : (0:ℝ) ≤ (d2 : ℝ))
      calc ((d2 : ℝ)) = Real.sqrt d2 ^ 2 := by rw [this]
        _ ≤ (c : ℝ) ^ 2 := by
            apply pow_le_pow_left₀ (Real.sqrt_nonneg _) hle
    exact_mod_cast h2

/-- Soundness of the `sqrtLT` encoding with respect to the real square root. -/
theorem sqrtLT_correct (d2 c : ℚ) (h : 0 ≤ d2) :
    sqrtLT d2 c = true ↔ Real.sqrt d2 < (c : ℝ) := by
  rw [sqrtLT, decide_eq_true_eq]
  constructor
  · rintro ⟨hc, hlt⟩
    have h1 : Real.sqrt d2 < Real.sqrt ((c : ℝ) ^ 2) := by
      apply Real.sqrt_lt_sqrt (by exact_mod_cast h)
      exact_mod_cast hlt
    rwa [Real.sqrt_sq (by positivity)] at h1
  · intro hlt
    have hc : (0 : ℝ) < (c : ℝ) := lt_of_le_of_lt (Real.sqrt_nonneg _) hlt
    refine ⟨by exact_mod_cast hc, ?_⟩
    have h2 : ((d2 : ℝ)) < (c : ℝ) ^ 2 := by
      have hs := Real.sq_sqrt (by exact_mod_cast h : (0:ℝ) ≤ (d2 : ℝ))
      calc ((d2 : ℝ)) = Real.sqrt d2 ^ 2 := by rw [hs]
        _ < (c : ℝ) ^ 2 := by
            apply pow_lt_pow_left₀ hlt (Real.sqrt_nonneg _)
            norm_num
    exact_mod_cast h2

/-- Embedding of the `TaskProgress` enum (`task.py`). -/
inductive TaskProgress where
  | not_started
  | moving_to_location
  | suspended
  | in_progress
  | completed
  deriving DecidableEq

/-- Embedding of the `TaskPriority` enum (`task.py`): LOW = 1, MEDIUM = 2,
HIGH = 3. -/
inductive TaskPriority where
  | low
  | medium
  | high
  deriving DecidableEq

/-- Numeric value of a priority (`TaskPriority(...).value` in Python). -/
def TaskPriority.value : TaskPriority → ℤ
  | .low => 1
  | .medium => 2
  | .high => 3

/-- Embedding of `Task` (`task.py`).  The subclasses (`TaskGotoLocation`,
`TaskAttendPatient`, `TaskDoorAccess`, `TaskWorkstation`) differ only in how
their `__post_init__` derives `location` from the payload (destination,
patient position, door midpoint, workstation position); the state machine in
`update_progress` reads nothing but the shared fields embedded here, so the
embedding carries `location` directly.  `time_started` / `time_completed` are
`field(init=False)` in Python and unset until first assignment; `none`
represents the unset state. -/
structure Task where
  time_needed : ℤ
  time_due : ℤ
  progress : TaskProgress := .not_started
  priority : TaskPriority := .medium
  location : Location
  time_started : Option ℤ := none
  time_completed : Option ℤ := none
  deriving DecidableEq

/-- Embedding of `Task.time_spent` (`task.py` lines 72-80).  Reading
`time_started` / `time_completed` while unset raises `AttributeError`. -/
def Task.time_spent (self : Task) (current_time : ℤ) : Except Err ℤ :=
  if self.progress = .completed then
    match self.time_completed, self.time_started with
    | some tc, some ts => .ok (tc - ts)
    | _, _ => .error .attributeError
  else if self.progress = .in_progress then
    match self.time_started with
    | some ts => .ok (current_time - ts)
    | none => .error .attributeError
  else .ok 0

/-- Embedding of the per-agent trajectory buffer `Record` (`agent.py`).  The
numpy arrays indexed by time are embedded as a list of performed writes; the
bounds check of `Record.push` is verbatim. -/
structure RecordEntry where
  time : ℤ
  x : ℚ
  y : ℚ
  heading : ℚ
  infection_status : ℤ
  deriving DecidableEq

/-- State of a trajectory buffer: its fixed capacity and the writes done so
far (`Record.__post_init__` allocates the arrays; `entries` starts empty). -/
structure Record where
  total_time : ℤ
  entries : List RecordEntry := []
  deriving DecidableEq

/-- Embedding of `Agent` (`agent.py`).  `infection_status` is the numeric
value of the `InfectionStatus` enum.  `agent_type` and `infection_details`
never influence the verified behaviour and are omitted.  `trajectory` is
`none` until `__post_init__` creates it (only when `trajectory_length > 0`);
reading it while absent raises `AttributeError`.  `pending_moves` is the trace
of movement steps: `head_to_point` followed by `move_one_step` reorients the
heading by `atan2` and displaces the position by
`movement_speed * (cos heading, sin heading)`, which is in general irrational;
since no verified property observes a post-step coordinate or heading, the
embedding records the target point of each step instead of applying the
trigonometric update. -/
structure Agent where
  idx : ℤ
  location : Location
  heading : ℚ
  interaction_radius : ℚ := 0.05
  tasks : List Task := []
  infection_status : ℤ := 0
  movement_speed : ℚ := 0.1
  trajectory_length : ℤ := 0
  trajectory : Option Record := none
  pending_moves : List (ℚ × ℚ) := []
  deriving DecidableEq

/-- Python float modulo with positive divisor 360, used by
`Agent.__post_init__` to normalise the heading into `[0, 360)`. -/
def mod360 (h : ℚ) : ℚ := h - 360 * ⌊h / 360⌋

/-- Embedding of `Agent.__post_init__` (`agent.py` lines 106-123): normalise
the heading, reject a negative `trajectory_length`, and allocate the
trajectory buffer when `trajectory_length > 0`. -/
def Agent.init (a : Agent) : Except Err Agent :=
  let a1 : Agent := { a with heading := mod360 a.heading }
  if a1.trajectory_length < 0 then
    .error (.valueError "trajectory_length must be non-negative.")
  else if a1.trajectory_length > 0 then
    .ok { a1 with trajectory := some { total_time := a1.trajectory_length } }
  else .ok a1

/-- Embedding of `Record.push` (`agent.py` lines 71-85): bounds check first,
then write the state at index `time`. -/
def Record.push (self : Record) (time : ℤ) (location : Location)
    (heading : ℚ) (infection_status : ℤ) : Except Err Record :=
  if time ≥ self.total_time then
    .error (.valueError "Time exceeds total_time for record.")
  else
    .ok { self with entries := self.entries ++
      [{ time := time, x := location.x, y := location.y, heading := heading,
         infection_status := infection_status }] }

/-- Embedding of `Agent.check_if_location_reached` (`agent.py` lines 150-161):
`False` when the buildings or the floors differ, else the comparison
`sqrt(dx^2 + dy^2) <= interaction_radius`, embedded exactly by `sqrtLE`. -/
def Agent.check_if_location_reached (self : Agent) (target_location : Location) : Bool :=
  if self.location.building ≠ target_location.building then false
  else if self.location.floor ≠ target_location.floor then false
  else
    sqrtLE ((self.location.x - target_location.x) ^ 2 +
      (self.location.y - target_location.y) ^ 2) self.interaction_radius

/-- Embedding of the consecutive calls `agent.head_to_point((x, y))` followed
by `agent.move_one_step()` (`agent.py` lines 262-288; the pair is only ever
called in this order, from `Task.update_progress`).  See the `pending_moves`
documentation on `Agent` for why the step is recorded as its target point. -/
def Agent.head_to_point_and_move_one_step (self : Agent) (point : ℚ × ℚ) : Agent :=
  { self with pending_moves := self.pending_moves ++ [point] }

/-- Embedding of `Task.update_progress` (`task.py` lines 92-128), statement by
statement:
1. a `COMPLETED` task is a no-op;
2. `time_spent` is computed once, up front;
3. an `IN_PROGRESS` task with `time_spent >= time_needed` is set to
   `COMPLETED` (note: without recording `time_completed`);
4. if the agent has reached the task location: `MOVING_TO_LOCATION` becomes
   `IN_PROGRESS` with `time_started = current_time`; then, if the progress is
   `IN_PROGRESS` and `time_spent >= time_needed`, the task is set to
   `COMPLETED` with `time_completed = current_time`; otherwise only a log line
   is emitted;
5. if the agent has not reached the task location: the progress is set to
   `MOVING_TO_LOCATION` and the agent reorients and advances one step. -/
def Task.update_progress (self : Task) (current_time : ℤ) (agent : Agent) :
    Except Err (Task × Agent) :=
  if self.progress = .completed then .ok (self, agent)
  else do
    let ts ← self.time_spent current_time
    let task1 : Task :=
      if self.progress = .in_progress ∧ ts ≥ self.time_needed then
        { self with progress := .completed }
      else self
    if agent.check_if_location_reached task1.location then
      let task2 : Task :=
        if task1.progress = .moving_to_location then
          { task1 with progress := .in_progress, time_started := some current_time }
        else task1
      if task2.progress = .in_progress ∧ ts ≥ task2.time_needed then
        .ok ({ task2 with progress := .completed, time_completed := some current_time },
          agent)
      else
        .ok (task2, agent)
    else
      .ok ({ task1 with progress := .moving_to_location },
        agent.head_to_point_and_move_one_step (task1.location.x, task1.location.y))

/-- Descending-priority comparison used by `perform_suspended_task` and
`perform_to_be_started_task`: Python `sort(key=lambda t: t.priority.value,
reverse=True)` is a stable descending sort; the embedding uses the stable
`List.insertionSort` with the relation `t2.priority.value ≤ t1.priority.value`
(any two stable sorts under the same comparator agree on every list). -/
def prioDesc (t1 t2 : Task) : Prop := t2.priority.value ≤ t1.priority.value

instance : DecidableRel prioDesc := fun t1 t2 =>
  Int.decLe t2.priority.value t1.priority.value

/-- Index in `tasks` of the task object Python selects: the Python code sorts
the filtered sublist (preserving original order among equal priorities) and
mutates its first element in place; in the embedding this is the first
occurrence in `tasks` equal to the head of the sorted filtered sublist (by
stability, the head IS the earliest maximal-priority element, so the first
structural match is the same position Python mutates). -/
def Agent.chosen_index (self : Agent) (task : Task) : ℕ :=
  self.tasks.findIdx (fun t => t = task)

/-- Embedding of `Agent.perform_in_progress_task` (`agent.py` lines 290-306):
no `IN_PROGRESS` task is a no-op returning `False`; two or more raise
`RuntimeError`; exactly one is advanced through `update_progress` and the
result written back at its position. -/
def Agent.perform_in_progress_task (self : Agent) (current_time : ℤ) :
    Except Err (Bool × Agent) :=
  match self.tasks.filter (fun t => t.progress = .in_progress) with
  | [] => .ok (false, self)
  | [task] => do
      let (task2, agent2) ← task.update_progress current_time self
      .ok (true, { agent2 with tasks := agent2.tasks.set (self.chosen_index task) task2 })
  | _ => .error (.runtimeError "Agent has multiple ongoing tasks.")

/-- Embedding of `Agent.perform_moving_to_task_location` (`agent.py` lines
308-326): same shape as `perform_in_progress_task` for the
`MOVING_TO_LOCATION` state. -/
def Agent.perform_moving_to_task_location (self : Agent) (current_time : ℤ) :
    Except Err (Bool × Agent) :=
  match self.tasks.filter (fun t => t.progress = .moving_to_location) with
  | [] => .ok (false, self)
  | [task] => do
      let (task2, agent2) ← task.update_progress current_time self
      .ok (true, { agent2 with tasks := agent2.tasks.set (self.chosen_index task) task2 })
  | _ => .error (.runtimeError "Agent has multiple tasks to start.")

/-- Embedding of `Agent.perform_suspended_task` (`agent.py` lines 328-340):
sort the `SUSPENDED` tasks by descending priority (stable) and advance the
first. -/
def Agent.perform_suspended_task (self : Agent) (current_time : ℤ) :
    Except Err (Bool × Agent) :=
  match (self.tasks.filter (fun t => t.progress = .suspended)).insertionSort prioDesc with
  | [] => .ok (false, self)
  | task :: _ => do
      let (task2, agent2) ← task.update_progress current_time self
      .ok (true, { agent2 with tasks := agent2.tasks.set (self.chosen_index task) task2 })

/-- Embedding of `Agent.perform_to_be_started_task` (`agent.py` lines
342-370) together with the inlined `Agent.estimate_time_to_reach_location`
(lines 446-449, `distance_to(target) / movement_speed`).  The Python guard is
`current_time < time_due - time_needed - distance / movement_speed`; with
`distance = sqrt d2` and `movement_speed > 0` this is equivalent to
`sqrt d2 < movement_speed * (time_due - time_needed - current_time)`, which is
embedded exactly by `sqrtLT` (see `sqrtLT_correct`).  A zero
`movement_speed` raises `ZeroDivisionError` in Python (after the distance is
computed); a negative `movement_speed` would flip the comparison, so every
theorem about this function carries the hypothesis `0 < movement_speed`
(default configuration is `0.1`).  Only the single highest-priority
`NOT_STARTED` task is examined. -/
def Agent.perform_to_be_started_task (self : Agent) (current_time : ℤ) :
    Except Err (Bool × Agent) :=
  match (self.tasks.filter (fun t => t.progress = .not_started)).insertionSort prioDesc with
  | [] => .ok (false, self)
  | task :: _ => do
      let d2 ← self.location.distance_to task.location
      if self.movement_speed = 0 then .error .zeroDivisionError
      else if sqrtLT d2 (self.movement_speed *
          ((task.time_due : ℚ) - (task.time_needed : ℚ) - (current_time : ℚ))) then
        .ok (false, self)
      else do
        let (task2, agent2) ← task.update_progress current_time self
        .ok (true, { agent2 with tasks := agent2.tasks.set (self.chosen_index task) task2 })

/-- Embedding of `Agent.record_state` (`agent.py` lines 372-384): bounds check
against `trajectory_length` first (raising `ValueError`), then push onto the
trajectory buffer (whose absence, when `trajectory_length` was `0` at
construction, would raise `AttributeError`). -/
def Agent.record_state (self : Agent) (current_time : ℤ) : Except Err Agent :=
  if current_time ≥ self.trajectory_length then
    .error (.valueError "Current time exceeds trajectory length.")
  else
    match self.trajectory with
    | none => .error .attributeError
    | some r => do
        let r2 ← r.push current_time self.location self.heading self.infection_status
        .ok { self with trajectory := some r2 }

/-- Embedding of `Agent.perform_task` (`agent.py` lines 386-444): optionally
record the state FIRST, then try the four task categories in strict order,
stopping at the first that performed something.  The `rooms` parameter of the
Python function is only used in a debug log line and is omitted. -/
def Agent.perform_task (self : Agent) (current_time : ℤ) (record : Bool) :
    Except Err Agent := do
  let a ← if record then self.record_state current_time else .ok self
  if a.tasks = [] then .ok a
  else do
    let (done1, a1) ← a.perform_in_progress_task current_time
    if done1 then .ok a1
    else do
      let (done2, a2) ← a1.perform_moving_to_task_location current_time
      if done2 then .ok a2
      else do
        let (done3, a3) ← a2.perform_suspended_task current_time
        if done3 then .ok a3
        else do
          let (done4, a4) ← a3.perform_to_be_started_task current_time
          let _ := done4
          .ok a4

/-- Embedding of `Simulation` (`simulation.py`).  `name`, `description`,
`mode` and the building list do not influence `step` (the `rooms` property is
only passed to `perform_task` for logging) and are omitted. -/
structure Simulation where
  agents : List Agent
  total_simulation_time : ℤ
  time : ℤ := 0
  deriving DecidableEq

/-- Sequential agent loop of `Simulation.step`: each agent performs its task;
a raise propagates, leaving the current and the remaining agents untouched
while keeping the mutations of the agents already processed. -/
def stepAgents (current_time : ℤ) : List Agent → Option Err × List Agent
  | [] => (none, [])
  | a :: rest =>
    match a.perform_task current_time false with
    | .error e => (some e, a :: rest)
    | .ok a2 =>
      let (e?, rest2) := stepAgents current_time rest
      (e?, a2 :: rest2)

/-- Embedding of `Simulation.step` (`simulation.py` lines 49-64).  The time
ceiling is checked before anything is mutated; then the agent list is
shuffled in place (`random.shuffle` is ambient randomness, embedded as an
explicit reordering parameter), each agent performs its task for the current
time, and finally `time` is incremented.  The optional plotting side effect
is omitted.  The result pairs the raised exception (if any) with the state as
Python leaves it: unchanged on the time-ceiling raise, partially advanced if
an agent raises mid-loop. -/
def Simulation.step (self : Simulation) (shuffle : List Agent → List Agent) :
    Option Err × Simulation :=
  if self.time ≥ self.total_simulation_time then
    (some (.timeError "Simulation has already reached its total simulation time."),
      self)
  else
    let agents1 := shuffle self.agents
    match stepAgents self.time agents1 with
    | (some e, ags) => (some e, { self with agents := ags })
    | (none, ags) => (none, { self with agents := ags, time := self.time + 1 })

/-- Identity key of a door (`space/door.py` lines 20-29): the name when
present, else the coordinate pair.  Python hashes this tuple; two doors have
equal hashes exactly when their keys are equal (the tuple hash is a pure
function of the key), so hash equality is embedded as key equality. -/
inductive DoorKey where
  | nameKey (n : String)
  | coordsKey (s e : ℚ × ℚ)
  deriving DecidableEq

/-- Embedding of `DetachedDoor` (`space/door.py`).  The Python field `end` is
a Lean keyword and is embedded as `end_`. -/
structure DetachedDoor where
  is_open : Bool
  access_control : Bool × Bool
  name : Option String := none
  start : Option (ℚ × ℚ) := none
  end_ : Option (ℚ × ℚ) := none
  deriving DecidableEq

/-- Python lexicographic `<` on coordinate pairs (tuple comparison). -/
def pairLT (a b : ℚ × ℚ) : Bool :=
  decide (a.1 < b.1 ∨ (a.1 = b.1 ∧ a.2 < b.2))

/-- Embedding of `DetachedDoor._identity_key` (`space/door.py` lines 20-29).
Note that `connecting_rooms` does NOT enter the key. -/
def DetachedDoor.identity_key (self : DetachedDoor) : Except Err DoorKey :=
  match self.name with
  | some n => .ok (.nameKey n)
  | none =>
    match self.start, self.end_ with
    | some s, some e => .ok (.coordsKey s e)
    | _, _ => .error (.invalidDoorError
        "Cannot create identity key from door without name or coordinates.")

/-- Embedding of `DetachedDoor.__eq__` (`space/door.py` lines 31-35):
equality of identity keys. -/
def DetachedDoor.eq (self other : DetachedDoor) : Except Err Bool := do
  let k1 ← self.identity_key
  let k2 ← other.identity_key
  .ok (k1 = k2)

/-- Embedding of `DetachedDoor.__post_init__` (`space/door.py` lines 56-78):
topological mode (both endpoints `None`) requires a name; mixed presence of
endpoints raises; finally the endpoint pair is canonicalised by swapping when
`start > end` lexicographically.  Note that the `start == end` rejection of
`_init_logical` (lines 47-54) is NOT reached: `__post_init__` never calls
`_init_logical`. -/
def DetachedDoor.post_init (self : DetachedDoor) : Except Err DetachedDoor :=
  if self.start = none ∧ self.end_ = none then
    if self.name = none then
      .error (.invalidDoorError "Door must have a name if start and end points are not defined.")
    else .ok self
  else if (self.start = none) ≠ (self.end_ = none) then
    .error (.invalidDoorError "Both start and end points must be None or both must be defined.")
  else
    match self.start, self.end_ with
    | some s, some e =>
      if pairLT e s then .ok { self with start := some e, end_ := some s }
      else .ok self
    | _, _ =>
      .error (.invalidDoorError "Both start and end points must be defined when in spatial mode.")

/-- Embedding of `Door` (`space/door.py` lines 81-104): a `DetachedDoor` plus
`connecting_rooms` and `door_id`.  The dataclass is declared with `eq=False`,
so `Door` inherits `__eq__` and `__hash__` from `DetachedDoor`, both of which
ignore `connecting_rooms`. -/
structure Door extends DetachedDoor where
  connecting_rooms : ℤ × ℤ
  door_id : ℤ
  deriving DecidableEq

/-- Embedding of `Door.__post_init__`: it only calls the
`DetachedDoor.__post_init__` validation. -/
def Door.post_init (self : Door) : Except Err Door := do
  let dd ← self.toDetachedDoor.post_init
  .ok { self with toDetachedDoor := dd }

/-- Door equality (inherited from `DetachedDoor.__eq__` because the `Door`
dataclass passes `eq=False`). -/
def Door.eq (self other : Door) : Except Err Bool :=
  self.toDetachedDoor.eq other.toDetachedDoor

/-- Line segment of a door (`Door.line`, `space/door.py` lines 98-104):
defined only in spatial mode. -/
def Door.line (self : Door) : Except Err ((ℚ × ℚ) × (ℚ × ℚ)) :=
  match self.start, self.end_ with
  | some s, some e => .ok (s, e)
  | _, _ => .error (.invalidDoorError
      "Door start and end must be defined when not in topological mode.")

/-- Embedding of `Wall` (`space/wall.py`): an oriented segment with a
thickness (the buffered polygon is only used for collision plots). -/
structure Wall where
  start : ℚ × ℚ
  end_ : ℚ × ℚ
  thickness : ℚ := 0.2
  deriving DecidableEq

/-- Line segment of a wall (`Wall.line`). -/
def Wall.line (self : Wall) : (ℚ × ℚ) × (ℚ × ℚ) := (self.start, self.end_)

/-- Abstraction of a shapely polygon: the room code reads nothing from the
polygonised region except its `area` (plus containment queries that no claim
exercises), so a face is embedded as its area together with an opaque tag
that keeps distinct faces distinct. -/
structure Polygon where
  area : ℚ
  tag : ℕ := 0
  deriving DecidableEq

/-- Room identity key (`Room.create_polygon_hash` / `create_name_hash`):
sha256 of the orientation-normalised polygon WKB, or of the name.  The hash
is embedded as the hashed datum itself (sha256 is collision-free for the
purposes of the model); the abstract `Polygon` carries no orientation, so the
`shapely.ops.orient` normalisation is the identity here. -/
inductive RoomHash where
  | polygonHash (p : Polygon)
  | nameHash (n : String)
  deriving DecidableEq

/-- Embedding of `Room` (`space/room.py`).  `contents` never influences the
verified behaviour and is omitted.  `region` and `room_hash` are
`field(init=False)`, assigned by `__post_init__`. -/
structure Room where
  room_id : ℤ
  name : String
  building : String
  floor : ℤ
  doors : List Door
  walls : Option (List Wall) := none
  area : Option ℚ := none
  region : Option Polygon := none
  room_hash : Option RoomHash := none
  deriving DecidableEq

/-- Python truthiness of the `walls` field (`if not self.walls`): `None` and
the empty list are falsy. -/
def pyTruthyWalls : Option (List Wall) → Bool
  | none => false
  | some ws => decide (ws ≠ [])

/-- Python truthiness of the `area` field (`if not self.area`): `None` and
`0.0` are falsy. -/
def pyTruthyArea : Option ℚ → Bool
  | none => false
  | some a => decide (a ≠ 0)

/-- Embedding of `Room.form_region` (`space/room.py` lines 97-113).  The
external geometry pipeline `shapely.ops.linemerge` followed by
`shapely.ops.polygonize` is not code of this repository; the embedding takes
it as an oracle `polygonize` mapping the concatenated wall and door segments
to the list of closed faces it finds.  The repository logic is verbatim:
missing walls raise `InvalidRoomError`; an empty face list raises
`InvalidRoomError` (\"The walls do not form a valid closed region.\"); and
otherwise the FIRST face is returned — a face list with more than one
element is not rejected. -/
def Room.form_region (walls : Option (List Wall)) (doors : List Door)
    (polygonize : List ((ℚ × ℚ) × (ℚ × ℚ)) → List Polygon) : Except Err Polygon :=
  match walls with
  | none => .error (.invalidRoomError "Cannot form region without walls.")
  | some ws => do
    let doorSegs ← doors.mapM Door.line
    match polygonize (ws.map Wall.line ++ doorSegs) with
    | [] => .error (.invalidRoomError "The walls do not form a valid closed region.")
    | p :: _ => .ok p

/-- Embedding of `Room.__post_init__` (`space/room.py` lines 42-73),
parametrised by the `polygonize` oracle (see `Room.form_region`): mode checks
(walls XOR area under Python truthiness), minimum wall count, area derivation
from the region when no truthy area was supplied, positivity of the area,
region assignment (an empty polygon, area `0`, for a wall-less room), and the
identity hash. -/
def Room.post_init (self : Room)
    (polygonize : List ((ℚ × ℚ) × (ℚ × ℚ)) → List Polygon) : Except Err Room := do
  if ¬ pyTruthyWalls self.walls ∧ ¬ pyTruthyArea self.area then
    .error (.simulationModeError "Either walls or area must be provided to define a room.")
  else if pyTruthyWalls self.walls ∧
      (self.walls.getD []).length < 3 then
    .error (.invalidRoomError "A room must have at least 3 walls to form a closed region.")
  else if pyTruthyWalls self.walls ∧ pyTruthyArea self.area then
    .error (.simulationModeError "Provide either walls or area, not both, to define a room.")
  else do
    let r1 : Room ←
      if ¬ pyTruthyArea self.area then do
        let reg ← Room.form_region self.walls self.doors polygonize
        .ok { self with area := some reg.area }
      else .ok self
    if (r1.area.getD 0) ≤ 0 then
      .error (.invalidRoomError "Room area must be positive.")
    else do
      let r2 : Room ←
        if pyTruthyWalls r1.walls then do
          let reg ← Room.form_region r1.walls r1.doors polygonize
          .ok { r1 with region := some reg }
        else .ok { r1 with region := some { area := 0 } }
      let r3 : Room :=
        if pyTruthyWalls r2.walls then
          { r2 with room_hash := some (.polygonHash ((r2.region.getD { area := 0 }))) }
        else
          { r2 with room_hash := some (.nameHash r2.name) }
      .ok r3

/-- Embedding of `Floor` (`space/floor.py`): a floor number and its rooms
(`pseudo_rooms` never influence the verified behaviour). -/
structure Floor where
  floor_number : ℤ
  rooms : List Room
  deriving DecidableEq

/-- Embedding of `Floor.__post_init__` (`space/floor.py` lines 28-33):
duplicate room ids raise `InvalidRoomError`. -/
def Floor.post_init (self : Floor) : Except Err Floor :=
  if (self.rooms.map (fun r => r.room_id)).Nodup then .ok self
  else .error (.invalidRoomError "Duplicate room IDs found on floor.")

/-- Embedding of `Floor.room_ids` (`space/floor.py` lines 35-38): the sorted
room ids. -/
def Floor.room_ids (self : Floor) : List ℤ :=
  (self.rooms.map (fun r => r.room_id)).insertionSort (fun a b => a ≤ b)

/-- Inner step of `Floor.edge_set`: one door adds `connecting_rooms` and its
swap (`edges.add(door.connecting_rooms)` then the reversed pair,
`space/floor.py` lines 52-53). -/
def doorEdgeStep (s2 : Finset (ℤ × ℤ)) (door : Door) : Finset (ℤ × ℤ) :=
  insert (door.connecting_rooms.2, door.connecting_rooms.1)
    (insert door.connecting_rooms s2)

/-- Outer step of `Floor.edge_set`: one room contributes all of its doors. -/
def roomEdgeStep (s : Finset (ℤ × ℤ)) (room : Room) : Finset (ℤ × ℤ) :=
  room.doors.foldl doorEdgeStep s

/-- Embedding of `Floor.edge_set` (`space/floor.py` lines 46-54): for every
door of every room, both `connecting_rooms` and its swap are added to a set. -/
def Floor.edge_set (self : Floor) : Finset (ℤ × ℤ) :=
  self.rooms.foldl roomEdgeStep ∅

/-- Embedding of the dictionary `room_id_to_index` built by
`Floor.adjacency_matrix`: the index of a room id in the sorted id list (the
dictionary is built from `enumerate(self.room_ids)`; with the floor invariant
of unique ids the first index is the only index). -/
def Floor.room_id_to_index (self : Floor) (room_id : ℤ) : ℕ :=
  self.room_ids.indexOf room_id

/-- Guard of `Floor.adjacency_matrix`: every edge endpoint must be a room id
of the floor, otherwise the dictionary lookup raises `KeyError`. -/
def Floor.edges_resolvable (self : Floor) : Prop :=
  ∀ e ∈ self.edge_set, e.1 ∈ self.room_ids ∧ e.2 ∈ self.room_ids

instance (f : Floor) : Decidable f.edges_resolvable := by
  unfold Floor.edges_resolvable; infer_instance

/-- Entry function of the adjacency matrix (`space/floor.py` lines 56-71).
The Python loop writes `1` at `(index room1, index room2)` for every edge in
the (unordered) edge set of an `n × n` zero matrix; since every write stores
the same value `1`, the resulting matrix is the indicator function of the
index image of the edge set, independent of the set iteration order.  Indices
outside the matrix are never written (the guard `edges_resolvable` rules the
lookups in) and read as `0` here. -/
def Floor.adjacency_fun (self : Floor) (i j : ℕ) : ℕ :=
  if ∃ e ∈ self.edge_set,
      self.room_id_to_index e.1 = i ∧ self.room_id_to_index e.2 = j then 1 else 0

/-- Embedding of `Floor.adjacency_matrix`: `KeyError` when an edge mentions a
room id absent from the floor, else the indicator matrix. -/
def Floor.adjacency_matrix (self : Floor) : Except Err (ℕ → ℕ → ℕ) :=
  if self.edges_resolvable then .ok self.adjacency_fun else .error .keyError

/-! Evaluation lemmas for the `Except` monad, used to compute the embedded
functions on concrete inputs. -/

@[simp] theorem ok_bind {α β : Type} (a : α) (f : α → Except Err β) :
    (Except.ok a : Except Err α) >>= f = f a := rfl

@[simp] theorem error_bind {α β : Type} (e : Err) (f : α → Except Err β) :
    (Except.error e : Except Err α) >>= f = Except.error e := rfl

/-! Shared concrete inputs for the evaluation theorems.  All rational values
are integer-valued so that kernel evaluation stays within integer
arithmetic. -/

/-- A concrete in-scope location. -/
def baseLoc : Location := { x := 0, y := 0, floor := 0, building := some "B" }

/-- A concrete location in a different building than `baseLoc`. -/
def crossLoc : Location := { x := 0, y := 0, floor := 0, building := some "C" }

/-- A concrete agent standing at `baseLoc` with integer radius and speed. -/
def baseAgent : Agent :=
  { idx := 0, location := baseLoc, heading := 0, interaction_radius := 1,
    movement_speed := 1 }

/-- Concrete spatial door whose two endpoints coincide (the constructor
input of `tests/test_door.py::test_door_creation_same_start_and_end_coordinates_raises`,
which expects `InvalidDoorError`). -/
def c4_door : Door :=
  { is_open := true, access_control := (true, true),
    start := some (1, 1), end_ := some (1, 1),
    connecting_rooms := (301, 302), door_id := 0 }

/-- C4: the claim states that constructing a door with `start == end` raises
`InvalidDoorError` with a message containing "cannot be the same".  The code
does not: `DetachedDoor.__post_init__` never calls `_init_logical` (the only
place holding that check, `space/door.py` lines 47-54), so the degenerate
door is constructed without error — contradicting the repository test
`test_door.py::test_door_creation_same_start_and_end_coordinates_raises`.
This theorem evaluates the constructor at the failing input. -/
theorem C4_same_endpoint_door_accepted :
    c4_door.post_init = .ok c4_door ∧ c4_door.start = c4_door.end_ := by
  constructor
  · rfl
  · rfl

/-- Concrete spatial door, canonical coordinates `(0,0)-(1,0)`, connecting
rooms `801` and `802` (mirroring `test_door.py::test_door_inequality`). -/
def c5_door1 : Door :=
  { is_open := true, access_control := (true, true),
    start := some (0, 0), end_ := some (1, 0),
    connecting_rooms := (801, 802), door_id := 0 }

/-- Same coordinates as `c5_door1` but different connecting rooms. -/
def c5_door2 : Door :=
  { is_open := true, access_control := (true, true),
    start := some (0, 0), end_ := some (1, 0),
    connecting_rooms := (803, 804), door_id := 1 }

/-- Built from the swapped coordinate pair `(1,0)-(0,0)` with the same
connecting rooms as `c5_door1`. -/
def c5_door3 : Door :=
  { is_open := true, access_control := (true, true),
    start := some (1, 0), end_ := some (0, 0),
    connecting_rooms := (801, 802), door_id := 2 }

/-- C5: the claim states that door equality and hashing are determined by the
canonical endpoint pair (or name) TOGETHER WITH `connecting_rooms`, so that
two doors with the same canonical coordinates but different
`connecting_rooms` are not equal.  The code disagrees:
`DetachedDoor._identity_key` (`space/door.py` lines 20-29) returns only the
name or the coordinate pair, never `connecting_rooms`, and `Door` inherits
`__eq__` / `__hash__` unchanged (`eq=False`), so `c5_door1` and `c5_door2`
compare equal and hash equal despite different connecting rooms —
contradicting the repository test `test_door.py::test_door_inequality`.
The first two conjuncts evaluate the swapped-coordinates part of the claim
(which does hold, thanks to the `__post_init__` canonicalisation); the last
two evaluate the code at the failing input. -/
theorem C5_identity_ignores_connecting_rooms :
    c5_door3.post_init = .ok { c5_door3 with start := some (0, 0), end_ := some (1, 0) } ∧
    Door.eq { c5_door3 with start := some (0, 0), end_ := some (1, 0) } c5_door1 = .ok true ∧
    c5_door1.eq c5_door2 = .ok true ∧
    c5_door1.toDetachedDoor.identity_key = c5_door2.toDetachedDoor.identity_key := by
  refine ⟨?_, rfl, rfl, rfl⟩
  rfl

/-- C7: calling `Simulation.step` with `time ≥ total_simulation_time` raises
`TimeError` before anything is mutated: the returned state is the input
state, every agent and the time unchanged.  This holds for every agent
roster and every shuffle. -/
theorem C7_step_after_ceiling_raises_and_mutates_nothing
    (sim : Simulation) (shuffle : List Agent → List Agent)
    (h : sim.total_simulation_time ≤ sim.time) :
    sim.step shuffle =
      (some (.timeError "Simulation has already reached its total simulation time."),
        sim) := by
  rw [Simulation.step, if_pos h]

/-- Witness for C7 at a concrete simulation whose clock has reached the
ceiling. -/
theorem C7_witness :
    ({ agents := [baseAgent], total_simulation_time := 10, time := 10 } :
        Simulation).total_simulation_time ≤
      ({ agents := [baseAgent], total_simulation_time := 10, time := 10 } :
        Simulation).time ∧
    ({ agents := [baseAgent], total_simulation_time := 10, time := 10 } :
        Simulation).step id =
      (some (.timeError "Simulation has already reached its total simulation time."),
        { agents := [baseAgent], total_simulation_time := 10, time := 10 }) :=
  ⟨by decide, C7_step_after_ceiling_raises_and_mutates_nothing _ id (by decide)⟩

/-- The base agent has reached `baseLoc` (it is standing on it). -/
theorem baseAgent_reaches_baseLoc :
    baseAgent.check_if_location_reached baseLoc = true := by
  rw [Agent.check_if_location_reached]
  norm_num [baseAgent, baseLoc, sqrtLE]

/-- Concrete task that is `IN_PROGRESS` since time `0`, needs `1` time unit,
and is evaluated at `current_time = 1`, so `time_spent = 1 ≥ time_needed`:
by the claim it should complete with `time_completed = 1`. -/
def c1_task : Task :=
  { time_needed := 1, time_due := 5, progress := .in_progress,
    location := baseLoc, time_started := some 0 }

/-- C1: the claim states that an `IN_PROGRESS` task with
`time_spent ≥ time_needed` transitions to `COMPLETED` and records
`time_completed = current_time`.  The code transitions to `COMPLETED` but
never records `time_completed`: the early completion at `task.py` lines
99-100 sets the progress before the location-reached branch, which makes the
recording branch at lines 107-112 (`progress == IN_PROGRESS and ...`)
unreachable for a task that was already `IN_PROGRESS`, so the `COMPLETED`
task is returned with `time_completed` still unset — and any later
`time_spent` call on it raises `AttributeError`.  This theorem evaluates the
code at the failing input. -/
theorem C1_completion_never_records_time_completed :
    c1_task.update_progress 1 baseAgent =
      .ok ({ c1_task with progress := .completed }, baseAgent) ∧
    ({ c1_task with progress := .completed } : Task).time_completed = none ∧
    Task.time_spent { c1_task with progress := .completed } 2 =
      .error .attributeError := by
  refine ⟨?_, rfl, rfl⟩
  rw [Task.update_progress]
  simp +decide [c1_task, Task.time_spent, baseAgent_reaches_baseLoc]

/-- Concrete `NOT_STARTED` task whose location the owning agent has already
reached on its very first evaluation. -/
def c2_task : Task :=
  { time_needed := 3, time_due := 5, progress := .not_started,
    location := baseLoc }

/-- C2: the claim states that a `NOT_STARTED` task whose location is already
reached on the very first evaluation skips `MOVING_TO_LOCATION` and becomes
`IN_PROGRESS` with `time_started = current_time`.  The code does neither: in
the location-reached branch of `update_progress` (`task.py` lines 102-120)
only a `MOVING_TO_LOCATION` task is promoted to `IN_PROGRESS`, so a
`NOT_STARTED` task falls through both inner conditionals and is returned
unchanged (the code merely logs "performing task"); it can never start.
This theorem evaluates the code at the failing input. -/
theorem C2_reached_not_started_task_stays_not_started :
    c2_task.update_progress 0 baseAgent = .ok (c2_task, baseAgent) ∧
    c2_task.progress = .not_started ∧ c2_task.time_started = none := by
  refine ⟨?_, rfl, rfl⟩
  rw [Task.update_progress]
  simp +decide [c2_task, Task.time_spent, baseAgent_reaches_baseLoc]

/-- C10: an agent whose `trajectory_length` is the default `0` (so
`__post_init__` never allocates a trajectory buffer) raises `ValueError` from
`record_state` on every `perform_task(..., record=True)` call with
`current_time ≥ 0`, before any task is selected or advanced: the error is
produced by the guard `current_time >= self.trajectory_length`
(`agent.py` lines 372-377), which fires ahead of the task cascade for every
task list. -/
theorem C10_record_with_zero_capacity_raises (a : Agent) (t : ℤ)
    (hlen : a.trajectory_length = 0) (ht : 0 ≤ t) :
    a.perform_task t true =
      .error (.valueError "Current time exceeds trajectory length.") := by
  have hrec : a.record_state t =
      .error (.valueError "Current time exceeds trajectory length.") := by
    rw [Agent.record_state, if_pos]
    rw [hlen]
    exact ht
  rw [Agent.perform_task]
  simp [hrec]

/-- Witness for C10: the base agent keeps the default `trajectory_length = 0`
and fails to record at time `0`. -/
theorem C10_witness :
    baseAgent.trajectory_length = 0 ∧ (0 : ℤ) ≤ 0 ∧
    baseAgent.perform_task 0 true =
      .error (.valueError "Current time exceeds trajectory length.") :=
  ⟨rfl, by decide, C10_record_with_zero_capacity_raises baseAgent 0 rfl (by decide)⟩

/-- C9 (amended): `Location.distance_to` raises `InvalidDistanceError`
whenever the buildings differ (tag `True`) or, buildings agreeing, the floors
differ (tag `False`); but this does not extend to every distance computation
between two Locations in the core: `Agent.check_if_location_reached`
(`agent.py` lines 150-161) handles the same cross-scope pairs by returning
`False` without raising. -/
theorem C9_cross_scope_distance_raises_but_reach_check_returns_false
    (l1 l2 : Location) (a : Agent)
    (hdiff : l1.building ≠ l2.building ∨ l1.floor ≠ l2.floor) :
    (∃ b : Bool, l1.distance_to l2 = .error (.invalidDistanceError b)) ∧
    (a.location = l1 → a.check_if_location_reached l2 = false) := by
  by_cases hb : l1.building = l2.building
  · have hf : l1.floor ≠ l2.floor := by
      rcases hdiff with h | h
      · exact absurd hb h
      · exact h
    constructor
    · exact ⟨false, by rw [Location.distance_to, if_neg (by simpa using hb), if_pos hf]⟩
    · intro ha
      rw [Agent.check_if_location_reached, ha, if_neg (by simpa using hb), if_pos hf]
  · constructor
    · exact ⟨true, by rw [Location.distance_to, if_pos hb]⟩
    · intro ha
      rw [Agent.check_if_location_reached, ha, if_pos hb]

/-- Witness for C9 at a concrete cross-building pair. -/
theorem C9_witness :
    (baseLoc.building ≠ crossLoc.building ∨ baseLoc.floor ≠ crossLoc.floor) ∧
    ((∃ b : Bool, baseLoc.distance_to crossLoc = .error (.invalidDistanceError b)) ∧
      (baseAgent.location = baseLoc →
        baseAgent.check_if_location_reached crossLoc = false)) :=
  ⟨Or.inl (by decide),
    C9_cross_scope_distance_raises_but_reach_check_returns_false baseLoc crossLoc
      baseAgent (Or.inl (by decide))⟩

/-- C9 counterexample: the original claim says that EVERY distance
computation between two Locations in different buildings fails with
`InvalidDistanceError` rather than returning a value, and it cites
`Agent.check_if_location_reached` as one such computation.  At this concrete
cross-building input that function completes normally and returns the value
`false`; no exception is raised (the embedded function is total). -/
theorem C9_counterexample :
    baseAgent.location.building ≠ crossLoc.building ∧
    baseAgent.check_if_location_reached crossLoc = false :=
  ⟨by decide, rfl⟩

/-- C6 (amended): `Room.form_region` raises `InvalidRoomError` when the
polygonisation of the merged wall and door segments yields ZERO faces, but a
result of MORE than one face is not rejected: the first face is returned and
room construction proceeds — zero faces and multiple faces are NOT treated
as the same class of error. -/
theorem C6_form_region_rejects_zero_but_not_multiple_faces
    (ws : List Wall) (doors : List Door) (dsegs : List ((ℚ × ℚ) × (ℚ × ℚ)))
    (hdoors : doors.mapM Door.line = .ok dsegs)
    (polygonize : List ((ℚ × ℚ) × (ℚ × ℚ)) → List Polygon) :
    (polygonize (ws.map Wall.line ++ dsegs) = [] →
      Room.form_region (some ws) doors polygonize =
        .error (.invalidRoomError "The walls do not form a valid closed region.")) ∧
    (∀ p rest, polygonize (ws.map Wall.line ++ dsegs) = p :: rest →
      Room.form_region (some ws) doors polygonize = .ok p) := by
  constructor
  · intro h
    rw [Room.form_region]
    rw [hdoors, ok_bind, h]
  · intro p rest h
    rw [Room.form_region]
    rw [hdoors, ok_bind, h]

/-- Four unit-square walls (thickness `1` keeps every rational integral). -/
def unitWalls : List Wall :=
  [{ start := (0, 0), end_ := (0, 1), thickness := 1 },
   { start := (0, 1), end_ := (1, 1), thickness := 1 },
   { start := (1, 1), end_ := (1, 0), thickness := 1 },
   { start := (1, 0), end_ := (0, 0), thickness := 1 }]

/-- A polygonisation oracle that reports TWO closed faces (as shapely does,
for instance, when the segments draw two squares sharing a vertex). -/
def twoFaces : List ((ℚ × ℚ) × (ℚ × ℚ)) → List Polygon :=
  fun _ => [{ area := 1, tag := 1 }, { area := 1, tag := 2 }]

/-- Concrete spatial room fed to the two-face oracle. -/
def c6_room : Room :=
  { room_id := 1, name := "R", building := "B", floor := 0, doors := [],
    walls := some unitWalls }

/-- C6 counterexample: the claim says a spatial room whose segments
polygonise into more than one closed region raises `InvalidRoomError`.  At
this concrete input the polygonisation yields two faces and `__post_init__`
nevertheless succeeds, deriving the area, region and hash from the FIRST
face (`room.py` line 113 returns `polygon[0]` after only checking
`len(polygon) == 0`). -/
theorem C6_counterexample :
    (twoFaces (unitWalls.map Wall.line ++ [])).length = 2 ∧
    c6_room.post_init twoFaces =
      .ok { c6_room with
            area := some 1,
            region := some { area := 1, tag := 1 },
            room_hash := some (.polygonHash { area := 1, tag := 1 }) } :=
  ⟨rfl, rfl⟩

/-- Witness for C6 on concrete inputs: with no doors the door-segment
extraction trivially succeeds, and both branches of the theorem apply to the
two-face oracle. -/
theorem C6_witness :
    (([] : List Door).mapM Door.line = .ok []) ∧
    ((twoFaces (unitWalls.map Wall.line ++ []) = [] →
      Room.form_region (some unitWalls) [] twoFaces =
        .error (.invalidRoomError "The walls do not form a valid closed region.")) ∧
    (∀ p rest, twoFaces (unitWalls.map Wall.line ++ []) = p :: rest →
      Room.form_region (some unitWalls) [] twoFaces = .ok p)) :=
  ⟨rfl, C6_form_region_rejects_zero_but_not_multiple_faces unitWalls [] [] rfl twoFaces⟩

/-- A set of integer pairs closed under swapping the two components. -/
def SwapClosed (s : Finset (ℤ × ℤ)) : Prop :=
  ∀ e ∈ s, (e.2, e.1) ∈ s

/-- One door step preserves swap closure, since it inserts a pair together
with its swap. -/
theorem swapClosed_doorEdgeStep (s : Finset (ℤ × ℤ)) (door : Door)
    (h : SwapClosed s) : SwapClosed (doorEdgeStep s door) := by
  intro e he
  rw [doorEdgeStep, Finset.mem_insert, Finset.mem_insert] at he
  rw [doorEdgeStep, Finset.mem_insert, Finset.mem_insert]
  rcases he with h1 | h2 | h3
  · right; left
    rw [h1]
  · left
    rw [h2]
  · right; right
    exact h e h3

/-- Folding door steps over any door list preserves swap closure. -/
theorem swapClosed_doorFold (doors : List Door) (s : Finset (ℤ × ℤ))
    (h : SwapClosed s) : SwapClosed (doors.foldl doorEdgeStep s) := by
  induction doors generalizing s with
  | nil => exact h
  | cons d ds ih => exact ih _ (swapClosed_doorEdgeStep s d h)

/-- Folding room steps over any room list preserves swap closure. -/
theorem swapClosed_roomFold (rooms : List Room) (s : Finset (ℤ × ℤ))
    (h : SwapClosed s) : SwapClosed (rooms.foldl roomEdgeStep s) := by
  induction rooms generalizing s with
  | nil => exact h
  | cons r rs ih => exact ih _ (swapClosed_doorFold r.doors s h)

/-- The edge set of every floor is closed under swapping, because every door
contributes both orientations of its `connecting_rooms` pair. -/
theorem edge_set_swapClosed (f : Floor) : SwapClosed f.edge_set := by
  rw [Floor.edge_set]
  apply swapClosed_roomFold
  intro e he
  simp at he

/-- C8: for every valid floor (unique room ids; every edge of the derived
edge set resolvable to room indices, which is exactly the condition under
which the Python dictionary lookups succeed), the adjacency matrix is
produced without error and is symmetric: `adj[i][j] = adj[j][i]` for all
indices. -/
theorem C8_adjacency_matrix_symmetric (f : Floor)
    (hids : (f.rooms.map (fun r => r.room_id)).Nodup)
    (hres : f.edges_resolvable) :
    f.adjacency_matrix = .ok f.adjacency_fun ∧
    ∀ i j, f.adjacency_fun i j = f.adjacency_fun j i := by
  have _hids := hids
  refine ⟨by rw [Floor.adjacency_matrix, if_pos hres], ?_⟩
  intro i j
  rw [Floor.adjacency_fun, Floor.adjacency_fun]
  refine if_congr ?_ rfl rfl
  constructor
  · rintro ⟨e, he, hi, hj⟩
    exact ⟨(e.2, e.1), edge_set_swapClosed f e he, hj, hi⟩
  · rintro ⟨e, he, hj, hi⟩
    exact ⟨(e.2, e.1), edge_set_swapClosed f e he, hi, hj⟩

/-- Door connecting rooms `1` and `2` of the round-trip example of spec
section 8. -/
def specDoor12 : Door :=
  { is_open := true, access_control := (true, true),
    start := some (0, 0), end_ := some (1, 0),
    connecting_rooms := (1, 2), door_id := 0 }

/-- Door connecting rooms `2` and `3` of the round-trip example. -/
def specDoor23 : Door :=
  { is_open := true, access_control := (true, true),
    start := some (1, 0), end_ := some (2, 0),
    connecting_rooms := (2, 3), door_id := 1 }

/-- Topological room used by the round-trip example floor. -/
def specRoom (i : ℤ) (n : String) (ds : List Door) : Room :=
  { room_id := i, name := n, building := "B1", floor := 1, doors := ds,
    area := some 10 }

/-- The round-trip example floor: rooms `1, 2, 3` with doors `1↔2` and
`2↔3`. -/
def specFloor : Floor :=
  { floor_number := 1,
    rooms := [specRoom 1 "A" [specDoor12], specRoom 2 "B" [specDoor12, specDoor23],
      specRoom 3 "C" [specDoor23]] }

/-- Witness for C8 at the round-trip example floor. -/
theorem C8_witness :
    (specFloor.rooms.map (fun r => r.room_id)).Nodup ∧
    specFloor.edges_resolvable ∧
    (specFloor.adjacency_matrix = .ok specFloor.adjacency_fun ∧
      ∀ i j, specFloor.adjacency_fun i j = specFloor.adjacency_fun j i) :=
  ⟨by decide, by decide,
    C8_adjacency_matrix_symmetric specFloor (by decide) (by decide)⟩

/-- Map over `Except` composes. -/
theorem except_map_map {α β γ : Type} (f : β → γ) (g : α → β)
    (x : Except Err α) :
    Except.map f (Except.map g x) = Except.map (fun a => f (g a)) x := by
  cases x <;> rfl

/-- Characterisation of one tick for an agent that has no `IN_PROGRESS`,
`MOVING_TO_LOCATION` or `SUSPENDED` tasks: the tick reduces to
`perform_to_be_started_task`, which examines ONLY the head of the
descending-priority stable sort of the `NOT_STARTED` tasks.  If the guard
`current_time < time_due - time_needed - distance / movement_speed` holds for
that one task (embedded by `sqrtLT`, see `perform_to_be_started_task`), the
agent does nothing this tick — regardless of any other `NOT_STARTED` task —
and otherwise that one task is advanced through `update_progress` and written
back at its position. -/
theorem tick_top_not_started
    (a : Agent) (t : ℤ) (task : Task) (rest : List Task) (d2 : ℚ)
    (h1 : a.tasks.filter (fun x => x.progress = .in_progress) = [])
    (h2 : a.tasks.filter (fun x => x.progress = .moving_to_location) = [])
    (h3 : a.tasks.filter (fun x => x.progress = .suspended) = [])
    (h4 : (a.tasks.filter (fun x => x.progress = .not_started)).insertionSort prioDesc
        = task :: rest)
    (h5 : a.location.distance_to task.location = .ok d2)
    (h6 : a.movement_speed ≠ 0) :
    a.perform_task t false = Except.map Prod.snd (a.perform_to_be_started_task t) ∧
    (sqrtLT d2 (a.movement_speed *
        ((task.time_due : ℚ) - (task.time_needed : ℚ) - (t : ℚ))) = true →
      a.perform_task t false = .ok a) ∧
    (sqrtLT d2 (a.movement_speed *
        ((task.time_due : ℚ) - (task.time_needed : ℚ) - (t : ℚ))) = false →
      a.perform_task t false =
        Except.map
          (fun p => { p.2 with tasks := p.2.tasks.set (a.chosen_index task) p.1 })
          (task.update_progress t a)) := by
  have htasks : ¬ (a.tasks = []) := by
    intro h0
    rw [h0] at h4
    simp [List.insertionSort] at h4
  have hip : a.perform_in_progress_task t = .ok (false, a) := by
    rw [Agent.perform_in_progress_task, h1]
  have hmv : a.perform_moving_to_task_location t = .ok (false, a) := by
    rw [Agent.perform_moving_to_task_location, h2]
  have hsp : a.perform_suspended_task t = .ok (false, a) := by
    rw [Agent.perform_suspended_task, h3]
    rfl
  have htb : a.perform_to_be_started_task t =
      if sqrtLT d2 (a.movement_speed *
          ((task.time_due : ℚ) - (task.time_needed : ℚ) - (t : ℚ))) = true
      then .ok (false, a)
      else Except.map
        (fun p => ((true : Bool),
          ({ p.2 with tasks := p.2.tasks.set (a.chosen_index task) p.1 } : Agent)))
        (task.update_progress t a) := by
    rw [Agent.perform_to_be_started_task]
    simp only [h4]
    rw [h5, ok_bind, if_neg h6]
    by_cases hs : sqrtLT d2 (a.movement_speed *
        ((task.time_due : ℚ) - (task.time_needed : ℚ) - (t : ℚ))) = true
    · rw [if_pos hs, if_pos hs]
    · rw [if_neg hs, if_neg hs]
      cases hup : task.update_progress t a with
      | error e => rw [error_bind]; rfl
      | ok p =>
        rw [ok_bind]
        rcases p with ⟨t2, a2⟩
        rfl
  have hmain : a.perform_task t false =
      Except.map Prod.snd (a.perform_to_be_started_task t) := by
    rw [Agent.perform_task]
    simp only [Bool.false_eq_true, if_false, ok_bind, if_neg htasks, hip, hmv, hsp]
    cases htbv : a.perform_to_be_started_task t with
    | error e => rw [error_bind]; rfl
    | ok p =>
      rw [ok_bind]
      rcases p with ⟨d4, a4⟩
      rfl
  refine ⟨hmain, ?_, ?_⟩
  · intro hs
    rw [hmain, htb, if_pos hs]
    rfl
  · intro hs
    rw [hmain, htb, if_neg (by rw [hs]; exact Bool.false_ne_true)]
    rw [except_map_map]

/-- C3 (amended): each tick, when an agent has no `IN_PROGRESS`,
`MOVING_TO_LOCATION` or `SUSPENDED` tasks, it considers ONLY the single
highest-priority `NOT_STARTED` task (priority ties broken by original list
order, the stable sort): if the latest safe start time of that task has arrived
(`current_time ≥ time_due - time_needed - distance/movement_speed`, here with
the guard embedded by `sqrtLT`) the agent advances it through
`update_progress`; otherwise the agent does nothing this tick — even when a
lower-priority `NOT_STARTED` task does qualify. -/
theorem C3_tick_advances_only_the_top_priority_task
    (a : Agent) (t : ℤ) (task : Task) (rest : List Task) (d2 : ℚ)
    (h1 : a.tasks.filter (fun x => x.progress = .in_progress) = [])
    (h2 : a.tasks.filter (fun x => x.progress = .moving_to_location) = [])
    (h3 : a.tasks.filter (fun x => x.progress = .suspended) = [])
    (h4 : (a.tasks.filter (fun x => x.progress = .not_started)).insertionSort prioDesc
        = task :: rest)
    (h5 : a.location.distance_to task.location = .ok d2)
    (h6 : a.movement_speed ≠ 0) :
    a.perform_task t false = Except.map Prod.snd (a.perform_to_be_started_task t) ∧
    (sqrtLT d2 (a.movement_speed *
        ((task.time_due : ℚ) - (task.time_needed : ℚ) - (t : ℚ))) = true →
      a.perform_task t false = .ok a) ∧
    (sqrtLT d2 (a.movement_speed *
        ((task.time_due : ℚ) - (task.time_needed : ℚ) - (t : ℚ))) = false →
      a.perform_task t false =
        Except.map
          (fun p => { p.2 with tasks := p.2.tasks.set (a.chosen_index task) p.1 })
          (task.update_progress t a)) :=
  tick_top_not_started a t task rest d2 h1 h2 h3 h4 h5 h6

/-- High-priority `NOT_STARTED` task that is far from due (its latest safe
start time lies 1000 time units ahead). -/
def c3_hi_task : Task :=
  { time_needed := 0, time_due := 1000, progress := .not_started,
    priority := .high, location := baseLoc }

/-- Low-priority `NOT_STARTED` task that is due immediately. -/
def c3_lo_task : Task :=
  { time_needed := 0, time_due := 0, progress := .not_started,
    priority := .low, location := baseLoc }

/-- Agent owning both tasks, with no task in any other state. -/
def c3_agent : Agent := { baseAgent with tasks := [c3_hi_task, c3_lo_task] }

/-- C3 counterexample: the original claim says the agent advances the
highest-priority `NOT_STARTED` task WHOSE latest safe start time has arrived,
and does nothing this tick ONLY if no `NOT_STARTED` task qualifies.  At this
concrete input the low-priority task qualifies (distance `0`, due at time
`0`, so its guard `sqrtLT _ _` is `false`, i.e. its latest safe start time
has arrived), yet the tick performs nothing, returning the agent unchanged:
the code checks the guard only on the single highest-priority `NOT_STARTED`
task (`agent.py` lines 351-367), which here is not yet due. -/
theorem C3_counterexample :
    c3_agent.perform_task 0 false = .ok c3_agent ∧
    c3_agent.tasks = [c3_hi_task, c3_lo_task] ∧
    c3_hi_task.progress = .not_started ∧
    c3_lo_task.progress = .not_started ∧
    c3_agent.location.distance_to c3_lo_task.location = .ok 0 ∧
    (0 : ℚ) < c3_agent.movement_speed ∧
    sqrtLT 0 (c3_agent.movement_speed *
      ((c3_lo_task.time_due : ℚ) - (c3_lo_task.time_needed : ℚ) - ((0 : ℤ) : ℚ)))
      = false := by
  refine ⟨?_, rfl, rfl, rfl, ?_, by decide, ?_⟩
  · have h5 : c3_agent.location.distance_to c3_hi_task.location = .ok 0 := by
      rw [Location.distance_to]
      norm_num [c3_agent, baseAgent, baseLoc, c3_hi_task]
    have hmain := tick_top_not_started c3_agent 0 c3_hi_task [c3_lo_task] 0
      rfl rfl rfl rfl h5 (by decide)
    apply hmain.2.1
    rw [sqrtLT, decide_eq_true_eq]
    norm_num [c3_agent, baseAgent, c3_hi_task]
  · rw [Location.distance_to]
    norm_num [c3_agent, baseAgent, baseLoc, c3_lo_task]
  · rw [sqrtLT, decide_eq_false_iff_not]
    norm_num [c3_agent, baseAgent, c3_lo_task]

/-- Single `NOT_STARTED` task that is due immediately, for the C3 witness. -/
def c3_due_task : Task :=
  { time_needed := 0, time_due := 0, progress := .not_started,
    priority := .low, location := baseLoc }

/-- Agent owning only `c3_due_task`. -/
def c3w_agent : Agent := { baseAgent with tasks := [c3_due_task] }

/-- Witness for C3 at a concrete single-task agent. -/
theorem C3_witness :
    (c3w_agent.tasks.filter (fun x => x.progress = .in_progress) = []) ∧
    ((c3w_agent.tasks.filter (fun x => x.progress = .not_started)).insertionSort prioDesc
        = c3_due_task :: []) ∧
    c3w_agent.location.distance_to c3_due_task.location = .ok 0 ∧
    c3w_agent.movement_speed ≠ 0 ∧
    (c3w_agent.perform_task 0 false =
        Except.map Prod.snd (c3w_agent.perform_to_be_started_task 0) ∧
      (sqrtLT 0 (c3w_agent.movement_speed *
          ((c3_due_task.time_due : ℚ) - (c3_due_task.time_needed : ℚ) - ((0 : ℤ) : ℚ)))
          = true →
        c3w_agent.perform_task 0 false = .ok c3w_agent) ∧
      (sqrtLT 0 (c3w_agent.movement_speed *
          ((c3_due_task.time_due : ℚ) - (c3_due_task.time_needed : ℚ) - ((0 : ℤ) : ℚ)))
          = false →
        c3w_agent.perform_task 0 false =
          Except.map
            (fun p => { p.2 with
              tasks := p.2.tasks.set (c3w_agent.chosen_index c3_due_task) p.1 })
            (c3_due_task.update_progress 0 c3w_agent))) :=
  ⟨rfl, rfl,
    by
      rw [Location.distance_to]
      norm_num [c3w_agent, baseAgent, baseLoc, c3_due_task],
    by decide,
    C3_tick_advances_only_the_top_priority_task c3w_agent 0 c3_due_task [] 0
      rfl rfl rfl rfl
      (by
        rw [Location.distance_to]
        norm_num [c3w_agent, baseAgent, baseLoc, c3_due_task])
      (by decide)⟩

end AmrHub
